import Mathlib

/-!
Verification of the nonebot-adapter-spigot WebSocket adapter.

The repository holds two variants of the same adapter module:
  * `src/nonebot/adapter/spigot/adapter.py`  (the "adapter" path), and
  * `src/nonebot/adapters/spigot/adapter.py` (the "adapters" path).
Both define `Adapter._handle_ws` (the connection manager) and
`Adapter.json_to_event` (the event decoder).  The event models, the `Bot`
class and the `Collator` module are not part of the sources; they are
abstracted as parse functions and candidate lists, and the collator is
modelled from the specification where a claim needs it.
-/

namespace Spigot

/-- JSON values, as produced by `json.loads` on a text frame. -/
inductive Json where
  | null : Json
  | bool : Bool → Json
  | num : Int → Json
  | str : String → Json
  | arr : List Json → Json
  | obj : List (String × Json) → Json

mutual

/-- Structural equality of JSON values (Python `==` on parsed values). -/
def Json.beq : Json → Json → Bool
  | .null, .null => true
  | .bool a, .bool b => a == b
  | .num a, .num b => a == b
  | .str a, .str b => a == b
  | .arr as, .arr bs => Json.beqList as bs
  | .obj as, .obj bs => Json.beqFields as bs
  | _, _ => false

/-- Elementwise equality of JSON arrays. -/
def Json.beqList : List Json → List Json → Bool
  | [], [] => true
  | a :: as, b :: bs => Json.beq a b && Json.beqList as bs
  | _, _ => false

/-- Elementwise equality of JSON object field lists. -/
def Json.beqFields : List (String × Json) → List (String × Json) → Bool
  | [], [] => true
  | (ka, va) :: as, (kb, vb) :: bs => ka == kb && Json.beq va vb && Json.beqFields as bs
  | _, _ => false

end

instance : BEq Json := ⟨Json.beq⟩

/-- `isinstance(json_data, dict)`. -/
def Json.isObj : Json → Bool
  | .obj _ => true
  | _ => false

/-- Dictionary field access `data.get(key)` on a JSON object. -/
def Json.lookup : Json → String → Option Json
  | .obj fields, k => fields.lookup k
  | _, _ => none

/-- A decoded event instance.  The concrete pydantic event classes live in
`event.py`, outside the sources; an event is abstracted as the payload it
was validated from together with an identifier of the model that produced
it. -/
structure Event where
  modelId : Nat
  payload : Json

/-- An event model is abstracted as its `parse_obj` classmethod: it either
returns a validated instance or raises a validation error (`none`). -/
abbrev EventModel := Json → Option Event

/-- The candidate loop inside `Adapter.json_to_event`: try each model from
the collator in order; a validation error (`none`) is logged at debug level
and the next candidate is tried; the first success breaks the loop. -/
def tryModels : List EventModel → Json → Option Event
  | [], _ => none
  | m :: rest, d =>
    match m d with
    | some e => some e
    | none => tryModels rest d

/-- `Adapter.json_to_event(json_data)`: `None` when the payload is not a
dict; otherwise the first candidate model that validates wins; when the
loop finishes without a break (the `for`/`else` branch), the fallback
`Event.parse_obj` is attempted; an exception there is caught by the
top-level `except`, which logs and returns `None`.  `models` is the
sequence yielded by `get_event_model` (the collator) for this payload and
`fallback` is `Event.parse_obj`. -/
def json_to_event (models : List EventModel) (fallback : EventModel)
    (json_data : Json) : Option Event :=
  if json_data.isObj then
    match tryModels models json_data with
    | some e => some e
    | none => fallback json_data
  else
    none

/-! ## Connection manager (`Adapter._handle_ws`)

The handler is modelled as a function from the adapter state, the value of
the `x-self-name` request header, the websocket handle (a numeric id) and
the stream of receive outcomes, to the final state and the ordered list of
observable actions (logs, close calls, registry notifications, dispatched
tasks).  Cooperative asyncio scheduling means each code segment between
two `await` points runs atomically; the sequential model below executes
one connection attempt in isolation, and a separate interleaving model
covers two concurrent attempts. -/

/-- Observable actions of the handler, in program order. -/
inductive Action where
  | logW : String → Action
  | logI : String → Action
  | logE : String → Action
  | close : Nat → String → Action
  | closeBare : Action
  | accept : Action
  | botConnect : String → Action
  | botDisconnect : String → Action
  | dispatch : Event → Action

/-- Outcome of one `await websocket.receive()` followed by
`json.loads(data)`: the peer may have closed (`WebSocketClosed` raised by
`receive`), or a text frame arrives and `json.loads` either returns a JSON
value or raises `JSONDecodeError` (`text none`).  `json.loads` is the
Python standard library, external to the repository, so it is modelled by
its outcome. -/
inductive FrameIn where
  | closedByPeer : FrameIn
  | text : Option Json → FrameIn

/-- How the `while True` receive loop ended: `WebSocketClosed` caught
(peer close), a generic `Exception` caught (for example `JSONDecodeError`
from `json.loads`), or the surrounding task stopped externally (modelled
by exhausting the finite stream). -/
inductive LoopEnd where
  | peerClosed : LoopEnd
  | errored : LoopEnd
  | stopped : LoopEnd
deriving DecidableEq

/-- The receive loop of `_handle_ws` (identical in both variants): each
iteration awaits a frame, parses it with `json.loads`, decodes it with
`self.json_to_event`, and spawns a dispatch task when an event was
decoded.  A `json.loads` failure propagates to the outer `except` clause,
which logs at error level and leaves the loop; a `WebSocketClosed` from
`receive` is logged at warning level.  `decode` stands for
`self.json_to_event` applied to this connection. -/
def receiveLoop (decode : Json → Option Event) : List FrameIn → List Action × LoopEnd
  | [] => ([], .stopped)
  | .closedByPeer :: _ => ([.logW "WebSocket closed by peer"], .peerClosed)
  | .text none :: _ => ([.logE "Error while process data from websocket"], .errored)
  | .text (some j) :: rest =>
    ((match decode j with
      | some e => [Action.dispatch e]
      | none => []) ++ (receiveLoop decode rest).1,
     (receiveLoop decode rest).2)

/-- Adapter state: `self.connections` (identity to websocket handle) and
the bot registry `self.bots` maintained through `bot_connect` and
`bot_disconnect`. -/
structure AdapterState where
  connections : List (String × Nat)
  bots : List String
deriving DecidableEq

/-- Python dict assignment `m[k] = v`: overwrite an existing entry, else
append. -/
def dictSet (k : String) (v : Nat) (m : List (String × Nat)) : List (String × Nat) :=
  if m.any (fun p => p.1 == k) then
    m.map (fun p => if p.1 == k then (k, v) else p)
  else
    m ++ [(k, v)]

/-- Python `m.pop(k, None)`: remove the entry for `k` when present. -/
def dictPop (k : String) (m : List (String × Nat)) : List (String × Nat) :=
  m.filter (fun p => p.1 ≠ k)

/-- `_handle_ws` of the `src/nonebot/adapter/spigot` variant.  The header
value comes from `websocket.request.headers.get("x-self-name")` (`none`
when the header is absent).  Checks: falsy header (absent or empty) means
warn and close 1008; identity already in `self.bots` means warn and close
1008; otherwise accept, register in `self.connections`, `bot_connect`,
run the receive loop, and in `finally` close the socket, pop the
registry entry and `bot_disconnect`. -/
def handle_ws (decode : Json → Option Event) (st : AdapterState)
    (header : Option String) (ws : Nat) (frames : List FrameIn) :
    AdapterState × List Action :=
  match header with
  | none =>
    (st, [.logW "Missing X-Self-ID Header", .close 1008 "Missing X-Self-ID Header"])
  | some name =>
    if name = "" then
      (st, [.logW "Missing X-Self-ID Header", .close 1008 "Missing X-Self-ID Header"])
    else if name ∈ st.bots then
      (st, [.logW "There is already a bot, ignored", .close 1008 "Duplicate X-Self-ID"])
    else
      let st1 : AdapterState :=
        { connections := dictSet name ws st.connections, bots := st.bots ++ [name] }
      let looped := receiveLoop decode frames
      let st2 : AdapterState :=
        { connections := dictPop name st1.connections,
          bots := st1.bots.filter (fun b => b ≠ name) }
      (st2,
        [.accept, .botConnect name, .logI "Bot connected"] ++ looped.1
          ++ [.closeBare, .botDisconnect name])

/-- Result of running a Python coroutine: a value, or an uncaught
`AttributeError` (calling a method on `None`). -/
inductive PyResult (α : Type) where
  | ok : α → PyResult α
  | attributeError : PyResult α

/-- State of the `src/nonebot/adapters/spigot` variant: in addition to
`self.connections` and `self.bots` it mutates the module-level dict
`get_connections` imported from `.utils`. -/
structure AdaptersState where
  connections : List (String × Nat)
  bots : List String
  get_connections : List (String × Nat)
deriving DecidableEq

/-- `_handle_ws` of the `src/nonebot/adapters/spigot` variant.  It first
evaluates
`websocket.request.headers.get("x-self-name").encode("utf-8").decode("unicode_escape")`:
when the header is absent, `get` returns `None` and `.encode` raises an
uncaught `AttributeError`.  `unescape` models the
`encode("utf-8").decode("unicode_escape")` round trip on a present value.
A successful handshake stores the websocket in both `self.connections`
and the module-level `get_connections`; the `finally` clause pops only
`self.connections`. -/
def handle_ws_adapters (unescape : String → String)
    (decode : Json → Option Event) (st : AdaptersState)
    (header : Option String) (ws : Nat) (frames : List FrameIn) :
    PyResult (AdaptersState × List Action) :=
  match header with
  | none => .attributeError
  | some raw =>
    let name := unescape raw
    if name = "" then
      .ok (st, [.logW "Missing X-Self-ID Header", .close 1008 "Missing X-Self-Name Header"])
    else if name ∈ st.bots then
      .ok (st, [.logW "There is already a bot, ignored", .close 1008 "Duplicate X-Self-Name"])
    else
      let st1 : AdaptersState :=
        { connections := dictSet name ws st.connections,
          bots := st.bots ++ [name],
          get_connections := dictSet name ws st.get_connections }
      let looped := receiveLoop decode frames
      let st2 : AdaptersState :=
        { connections := dictPop name st1.connections,
          bots := st1.bots.filter (fun b => b ≠ name),
          get_connections := st1.get_connections }
      .ok (st2,
        [.accept, .botConnect name, .logI "Bot connected"] ++ looped.1
          ++ [.closeBare, .botDisconnect name])

/-- Number of `bot_disconnect` notifications for `name` in an action
trace. -/
def countDisconnects (name : String) : List Action → Nat
  | [] => 0
  | .botDisconnect n :: rest =>
    (if n = name then 1 else 0) + countDisconnects name rest
  | _ :: rest => countDisconnects name rest

/-- Number of `bot_connect` notifications for `name` in an action
trace. -/
def countConnects (name : String) : List Action → Nat
  | [] => 0
  | .botConnect n :: rest =>
    (if n = name then 1 else 0) + countConnects name rest
  | _ :: rest => countConnects name rest

/-- Number of dispatched event tasks in an action trace. -/
def countDispatches : List Action → Nat
  | [] => 0
  | .dispatch _ :: rest => 1 + countDispatches rest
  | _ :: rest => countDispatches rest

/-- Number of close calls with policy-violation code 1008 in an action
trace. -/
def countRejects : List Action → Nat
  | [] => 0
  | .close 1008 _ :: rest => 1 + countRejects rest
  | _ :: rest => countRejects rest

/-! ## Interleaving of two concurrent handshakes

Asyncio runs one task at a time; a task can only lose control at an
`await`.  In `_handle_ws` the duplicate check (`self_name in self.bots`)
and the registration block (`self.connections[...] = websocket;
self.bot_connect(bot)`) are separated by `await websocket.accept()`, so
they are distinct atomic segments and a second handshake task may run its
own check in between. -/

/-- Progress of one handshake task through its atomic segments: before
the checks, past the checks and suspended at `await websocket.accept()`,
registered (accept returned and the registration block ran), or rejected
by a check. -/
inductive TaskPhase where
  | start : TaskPhase
  | accepted : TaskPhase
  | registered : TaskPhase
  | rejected : TaskPhase
deriving DecidableEq

/-- Run one atomic segment of a handshake task for identity `name` and
websocket `ws` against the shared adapter state, as in
`_handle_ws` of the `src/nonebot/adapter/spigot` variant: the check
segment ends suspended at `await websocket.accept()`; the next segment
performs the registration block. -/
def taskStep (name : String) (ws : Nat) (st : AdapterState) :
    TaskPhase → AdapterState × TaskPhase × List Action
  | .start =>
    if name = "" then
      (st, .rejected,
        [.logW "Missing X-Self-ID Header", .close 1008 "Missing X-Self-ID Header"])
    else if name ∈ st.bots then
      (st, .rejected,
        [.logW "There is already a bot, ignored", .close 1008 "Duplicate X-Self-ID"])
    else
      (st, .accepted, [])
  | .accepted =>
    ({ connections := dictSet name ws st.connections, bots := st.bots ++ [name] },
      .registered, [.accept, .botConnect name, .logI "Bot connected"])
  | .registered => (st, .registered, [])
  | .rejected => (st, .rejected, [])

/-- Shared state of two concurrent handshake attempts A and B for the
same identity, plus the combined action trace. -/
structure RaceState where
  st : AdapterState
  phaseA : TaskPhase
  phaseB : TaskPhase
  acts : List Action

/-- Execute a cooperative schedule: each entry says which task runs its
next atomic segment (`true` for A with handle `wsA`, `false` for B with
handle `wsB`). -/
def runRace (name : String) (wsA wsB : Nat) : List Bool → RaceState → RaceState
  | [], r => r
  | isA :: sched, r =>
    if isA then
      let s := taskStep name wsA r.st r.phaseA
      runRace name wsA wsB sched ⟨s.1, s.2.1, r.phaseB, r.acts ++ s.2.2⟩
    else
      let s := taskStep name wsB r.st r.phaseB
      runRace name wsA wsB sched ⟨s.1, r.phaseA, s.2.1, r.acts ++ s.2.2⟩

/-! ## Model Collator (spec-modelled)

`collator.py` is imported by both adapter modules but is not among the
sources; only its construction (`Collator("Spigot", DEFAULT_MODELS,
keys)`) and its use (`get_model(data)` behind `get_event_model`) appear
in `adapter.py`.  The definitions below are therefore modelled from the
specification. -/

/-- Modelled from the spec: the extraction step of the Collator's
`resolve` — "extract the configured discriminator field values present in
`payload` (missing fields map to an empty marker)"; a partial key is a
prefix of the configured field list formed from the fields that are
present, so extraction stops at the first missing field. -/
def presentKey (keys : List String) (payload : Json) : List Json :=
  match keys with
  | [] => []
  | k :: rest =>
    match payload.lookup k with
    | some v => v :: presentKey rest payload
    | none => []

/-- The non-empty initial segments of a key, longest first, used to try
partial keys in decreasing specificity. -/
def initsDesc : List Json → List (List Json)
  | [] => []
  | x :: xs => (initsDesc xs).map (fun p => x :: p) ++ [[x]]

/-- Modelled from the spec: the Model Index — an "immutable mapping from
Discriminator Key (full or partial) to an ordered list of candidate
types, most specific first", built once at startup.  Candidate event
types are identified by numeric ids. -/
abbrev ModelIndex := List (List Json × List Nat)

/-- Candidates stored in the index under one (full or partial) key. -/
def indexEntries (index : ModelIndex) (key : List Json) : List Nat :=
  match index.find? (fun p => Json.beqList p.1 key) with
  | some p => p.2
  | none => []

/-- Modelled from the spec: the Collator operation
`resolve(payload) -> sequence of candidate types` — "look up the longest
available partial key that has any index entries; produce a lazy, finite,
ordered sequence of candidate types (most specific first).  Never raises
on missing fields ...  If no discriminator field is present at all, the
sequence is empty." -/
def resolve (index : ModelIndex) (keys : List String) (payload : Json) : List Nat :=
  match (initsDesc (presentKey keys payload)).find?
      (fun key => !(indexEntries index key).isEmpty) with
  | some key => indexEntries index key
  | none => []

/-! ## Theorems -/

/-- When every candidate model raises a validation error, the candidate
loop finishes without a break. -/
theorem tryModels_all_fail (models : List EventModel) (d : Json)
    (h : ∀ m ∈ models, m d = none) : tryModels models d = none := by
  induction models with
  | nil => rfl
  | cons m rest ih =>
    have hm := h m (List.mem_cons_self m rest)
    simp only [tryModels, hm]
    exact ih fun m1 h1 => h m1 (List.mem_cons_of_mem m h1)

/-- The candidate loop returns the first successful parse and its result
does not depend on the candidates after it. -/
theorem tryModels_append_success (ms1 ms2 : List EventModel) (m : EventModel)
    (d : Json) (e : Event) (hfail : ∀ m1 ∈ ms1, m1 d = none)
    (hm : m d = some e) : tryModels (ms1 ++ m :: ms2) d = some e := by
  induction ms1 with
  | nil => simp [tryModels, hm]
  | cons m1 rest ih =>
    have h1 := hfail m1 (List.mem_cons_self m1 rest)
    simp only [List.cons_append, tryModels, h1]
    exact ih fun x hx => hfail x (List.mem_cons_of_mem m1 hx)

/-- Claim C6: for every input value that is not a JSON object,
`json_to_event` returns `None` without attempting any candidate parse —
the result is `none` uniformly in the candidate list and the fallback. -/
theorem c6_non_object_returns_none (models : List EventModel)
    (fallback : EventModel) (j : Json) (h : j.isObj = false) :
    json_to_event models fallback j = none := by
  simp [json_to_event, h]

theorem c6_witness :
    (Json.arr []).isObj = false
    ∧ json_to_event [fun d => some ⟨1, d⟩] (fun d => some ⟨0, d⟩)
        (Json.arr []) = none :=
  ⟨rfl, c6_non_object_returns_none _ _ _ rfl⟩

/-- Claim C7: on a JSON-object payload the decoder tries the candidates
in the order the collator yielded them and returns the first one that
validates; the candidates after the first success play no part in the
result. -/
theorem c7_first_success_short_circuit (ms1 ms2 : List EventModel)
    (m fallback : EventModel) (d : Json) (e : Event)
    (hobj : d.isObj = true) (hfail : ∀ m1 ∈ ms1, m1 d = none)
    (hm : m d = some e) :
    json_to_event (ms1 ++ m :: ms2) fallback d = some e := by
  simp [json_to_event, hobj, tryModels_append_success ms1 ms2 m d e hfail hm]

theorem c7_witness :
    ((Json.obj [("event_name", Json.str "PlayerJoin")]).isObj = true
    ∧ (∀ m1 ∈ ([fun _ => none] : List EventModel),
        m1 (Json.obj [("event_name", Json.str "PlayerJoin")]) = none))
    ∧ json_to_event ([fun _ => none] ++ (fun d => some ⟨5, d⟩) :: [fun d => some ⟨9, d⟩])
        (fun d => some ⟨0, d⟩) (Json.obj [("event_name", Json.str "PlayerJoin")])
        = some ⟨5, Json.obj [("event_name", Json.str "PlayerJoin")]⟩ :=
  ⟨⟨rfl, fun m1 h1 => by rw [List.mem_singleton] at h1; subst h1; rfl⟩,
    c7_first_success_short_circuit _ _ _ _ _ _ rfl
      (fun m1 h1 => by rw [List.mem_singleton] at h1; subst h1; rfl) rfl⟩

/-- Claim C8: on a JSON-object payload for which no candidate validates
(also when there are no candidates), the decoder falls through to the
`for`/`else` branch and attempts the fallback `Event.parse_obj`; the
result is exactly the fallback outcome, so a fallback failure makes
`json_to_event` return `None` — and the function is total, it never
raises. -/
theorem c8_fallback_when_no_candidate (models : List EventModel)
    (fallback : EventModel) (d : Json) (hobj : d.isObj = true)
    (hfail : ∀ m ∈ models, m d = none) :
    json_to_event models fallback d = fallback d := by
  simp [json_to_event, hobj, tryModels_all_fail models d hfail]

theorem c8_witness :
    ((Json.obj []).isObj = true
    ∧ (∀ m ∈ ([fun _ => none, fun _ => none] : List EventModel),
        m (Json.obj []) = none))
    ∧ json_to_event [fun _ => none, fun _ => none] (fun _ => none)
        (Json.obj []) = none :=
  ⟨⟨rfl, fun m h => by
      rcases List.mem_cons.mp h with h1 | h1
      · subst h1; rfl
      · rw [List.mem_singleton] at h1; subst h1; rfl⟩,
    (c8_fallback_when_no_candidate [fun _ => none, fun _ => none]
        (fun _ => none) (Json.obj []) rfl (fun m h => by
      rcases List.mem_cons.mp h with h1 | h1
      · subst h1; rfl
      · rw [List.mem_singleton] at h1; subst h1; rfl)).trans rfl⟩

/-- Claim C1 (amended): a received text frame that is not valid JSON
makes `json.loads` raise inside the `try` of the receive loop; the outer
`except Exception` logs at error level and the loop terminates (no event
is dispatched from that frame and the frames after it are not processed
— the handler then proceeds to its cleanup).  Only a frame that is valid
JSON but fails event decoding is dropped with the loop continuing to the
next frame. -/
theorem c1_amended_malformed_frame (decode : Json → Option Event)
    (rest : List FrameIn) (j : Json) (hdec : decode j = none) :
    receiveLoop decode (.text none :: rest)
        = ([.logE "Error while process data from websocket"], .errored)
    ∧ receiveLoop decode (.text (some j) :: rest) = receiveLoop decode rest := by
  refine ⟨rfl, ?_⟩
  simp [receiveLoop, hdec]

theorem c1_amended_witness :
    json_to_event [] (fun _ => none) (Json.obj []) = none
    ∧ (receiveLoop (json_to_event [] (fun _ => none)) [.text none, .closedByPeer]
        = ([.logE "Error while process data from websocket"], .errored)
      ∧ receiveLoop (json_to_event [] (fun _ => none))
          [.text (some (Json.obj [])), .closedByPeer]
        = receiveLoop (json_to_event [] (fun _ => none)) [.closedByPeer]) :=
  ⟨rfl, c1_amended_malformed_frame _ _ _ rfl⟩

/-- Claim C1 counterexample: with the fallback `Event.parse_obj`
succeeding on objects, the peer sends the malformed text `not json`
(`json.loads` fails) and then a valid JSON object frame.  The receive
loop ends in the errored state at the malformed frame and dispatches
nothing — the valid frame that follows is never processed — although
that same valid frame alone would have dispatched one event.  This
refutes "the connection remains open and the next valid frame is
processed normally". -/
theorem c1_cex_malformed_frame_terminates :
    (receiveLoop (json_to_event [] (fun d => some ⟨0, d⟩))
        [.text none, .text (some (Json.obj []))]).2 = .errored
    ∧ countDispatches (receiveLoop (json_to_event [] (fun d => some ⟨0, d⟩))
        [.text none, .text (some (Json.obj []))]).1 = 0
    ∧ countDispatches (receiveLoop (json_to_event [] (fun d => some ⟨0, d⟩))
        [.text (some (Json.obj []))]).1 = 1 :=
  ⟨rfl, rfl, rfl⟩

/-- Disconnect notifications add up over concatenated traces. -/
theorem countDisconnects_append (name : String) (a b : List Action) :
    countDisconnects name (a ++ b)
      = countDisconnects name a + countDisconnects name b := by
  induction a with
  | nil => simp [countDisconnects]
  | cons x rest ih =>
    cases x <;> simp [countDisconnects, ih, Nat.add_assoc]

/-- The receive loop emits no `bot_disconnect` notification. -/
theorem receiveLoop_no_disconnects (name : String)
    (decode : Json → Option Event) (frames : List FrameIn) :
    countDisconnects name (receiveLoop decode frames).1 = 0 := by
  induction frames with
  | nil => rfl
  | cons f rest ih =>
    cases f with
    | closedByPeer => rfl
    | text oj =>
      cases oj with
      | none => rfl
      | some j =>
        simp only [receiveLoop, countDisconnects_append, ih]
        cases decode j <;> simp [countDisconnects]

/-- After `pop`, no entry for the popped key remains. -/
theorem dictPop_ne (k : String) (m : List (String × Nat)) :
    ∀ p ∈ dictPop k m, p.1 ≠ k := by
  intro p hp
  have h := List.mem_filter.mp hp
  simpa using h.2

/-- Dict assignment makes the assigned pair a member. -/
theorem dictSet_mem (k : String) (v : Nat) (m : List (String × Nat)) :
    (k, v) ∈ dictSet k v m := by
  unfold dictSet
  cases h : m.any (fun p => p.1 == k) with
  | false => simp [h]
  | true =>
    simp only [h, if_true]
    rcases List.any_eq_true.mp h with ⟨p, hp, hpk⟩
    exact List.mem_map.mpr ⟨p, hp, by simp [hpk]⟩

/-- The success path of `_handle_ws` (`src/nonebot/adapter/spigot`
variant), written out. -/
theorem handle_ws_success (decode : Json → Option Event) (st : AdapterState)
    (name : String) (ws : Nat) (frames : List FrameIn)
    (hname : name ≠ "") (hbots : name ∉ st.bots) :
    handle_ws decode st (some name) ws frames
      = ({ connections := dictPop name (dictSet name ws st.connections),
            bots := (st.bots ++ [name]).filter (fun b => b ≠ name) },
          [.accept, .botConnect name, .logI "Bot connected"]
            ++ (receiveLoop decode frames).1
            ++ [.closeBare, .botDisconnect name]) := by
  simp [handle_ws, hname, hbots, dictPop]

/-- The success path of `_handle_ws` (`src/nonebot/adapters/spigot`
variant), written out. -/
theorem handle_ws_adapters_success (unescape : String → String)
    (decode : Json → Option Event) (st : AdaptersState) (raw name : String)
    (ws : Nat) (frames : List FrameIn)
    (hraw : unescape raw = name) (hname : name ≠ "") (hbots : name ∉ st.bots) :
    handle_ws_adapters unescape decode st (some raw) ws frames
      = .ok ({ connections := dictPop name (dictSet name ws st.connections),
                bots := (st.bots ++ [name]).filter (fun b => b ≠ name),
                get_connections := dictSet name ws st.get_connections },
              [.accept, .botConnect name, .logI "Bot connected"]
                ++ (receiveLoop decode frames).1
                ++ [.closeBare, .botDisconnect name]) := by
  simp [handle_ws_adapters, hraw, hname, hbots, dictPop]

/-- Claim C3: in both variants, whichever way the receive loop of an
active connection ends (peer close, error, external stop), the `finally`
clause pops the identity from `self.connections` and fires
`bot_disconnect` exactly once: afterwards no registry entry for the
identity remains and exactly one disconnect notification is in the
trace. -/
theorem c3_cleanup_after_loop (decode : Json → Option Event)
    (st : AdapterState) (sta : AdaptersState) (unescape : String → String)
    (name raw : String) (ws ws2 : Nat) (frames frames2 : List FrameIn)
    (hname : name ≠ "") (hbots : name ∉ st.bots)
    (hraw : unescape raw = name) (hbots2 : name ∉ sta.bots) :
    ((∀ p ∈ (handle_ws decode st (some name) ws frames).1.connections, p.1 ≠ name)
    ∧ countDisconnects name (handle_ws decode st (some name) ws frames).2 = 1)
    ∧ ∃ stf acts,
        handle_ws_adapters unescape decode sta (some raw) ws2 frames2
          = .ok (stf, acts)
        ∧ (∀ p ∈ stf.connections, p.1 ≠ name)
        ∧ countDisconnects name acts = 1 := by
  rw [handle_ws_success decode st name ws frames hname hbots]
  refine ⟨⟨dictPop_ne name _, ?_⟩, ?_⟩
  · simp [countDisconnects_append, receiveLoop_no_disconnects, countDisconnects]
  · refine ⟨_, _, handle_ws_adapters_success unescape decode sta raw name ws2
      frames2 hraw hname hbots2, dictPop_ne name _, ?_⟩
    simp [countDisconnects_append, receiveLoop_no_disconnects, countDisconnects]

theorem c3_witness :
    ((∀ p ∈ (handle_ws (fun _ => none) ⟨[("Other", 7)], ["Other"]⟩
        (some "Bot1") 1 [.closedByPeer]).1.connections, p.1 ≠ "Bot1")
    ∧ countDisconnects "Bot1" (handle_ws (fun _ => none) ⟨[("Other", 7)], ["Other"]⟩
        (some "Bot1") 1 [.closedByPeer]).2 = 1)
    ∧ ∃ stf acts,
        handle_ws_adapters (fun s => s) (fun _ => none) ⟨[], [], []⟩
          (some "Bot1") 2 [] = .ok (stf, acts)
        ∧ (∀ p ∈ stf.connections, p.1 ≠ "Bot1")
        ∧ countDisconnects "Bot1" acts = 1 :=
  c3_cleanup_after_loop (fun _ => none) ⟨[("Other", 7)], ["Other"]⟩ ⟨[], [], []⟩
    (fun s => s) "Bot1" "Bot1" 1 2 [.closedByPeer] []
    (by decide) (by decide) rfl (by decide)

/-- Claim C4: in both variants a handshake presenting an identity that is
already registered (present in the bot set and holding a registry entry)
is rejected with close code 1008 and a duplicate-identity reason, and the
whole adapter state — in particular the existing registry entry — is
returned unchanged. -/
theorem c4_duplicate_rejected (decode : Json → Option Event)
    (st : AdapterState) (sta : AdaptersState) (unescape : String → String)
    (name raw : String) (ws ws2 : Nat) (frames frames2 : List FrameIn)
    (hname : name ≠ "") (hdup : name ∈ st.bots)
    (hreg : name ∈ st.connections.map Prod.fst)
    (hraw : unescape raw = name) (hdup2 : name ∈ sta.bots) :
    handle_ws decode st (some name) ws frames
      = (st, [.logW "There is already a bot, ignored",
              .close 1008 "Duplicate X-Self-ID"])
    ∧ handle_ws_adapters unescape decode sta (some raw) ws2 frames2
      = .ok (sta, [.logW "There is already a bot, ignored",
                    .close 1008 "Duplicate X-Self-Name"]) := by
  constructor
  · simp [handle_ws, hname, hdup]
  · simp [handle_ws_adapters, hraw, hname, hdup2]

theorem c4_witness :
    handle_ws (fun _ => none) ⟨[("Bot1", 3)], ["Bot1"]⟩ (some "Bot1") 4 []
      = (⟨[("Bot1", 3)], ["Bot1"]⟩,
          [.logW "There is already a bot, ignored",
            .close 1008 "Duplicate X-Self-ID"])
    ∧ handle_ws_adapters (fun s => s) (fun _ => none)
        ⟨[("Bot1", 3)], ["Bot1"], [("Bot1", 3)]⟩ (some "Bot1") 4 []
      = .ok (⟨[("Bot1", 3)], ["Bot1"], [("Bot1", 3)]⟩,
          [.logW "There is already a bot, ignored",
            .close 1008 "Duplicate X-Self-Name"]) :=
  c4_duplicate_rejected (fun _ => none) ⟨[("Bot1", 3)], ["Bot1"]⟩
    ⟨[("Bot1", 3)], ["Bot1"], [("Bot1", 3)]⟩ (fun s => s) "Bot1" "Bot1" 4 4 [] []
    (by decide) (by decide) (by decide) rfl (by decide)

/-- Claim C2 (code bug): in the `src/nonebot/adapters/spigot` variant a
request carrying no `x-self-name` header makes `headers.get` return
`None`, and the immediate `.encode("utf-8")` call on it raises an
uncaught `AttributeError` — the handler never reaches the
missing-identity check, so no close with code 1008 is sent by the
adapter (the registry is still never touched).  The
`src/nonebot/adapter/spigot` variant does close 1008 as the claim
states. -/
theorem c2_missing_header_attribute_error :
    handle_ws_adapters (fun s => s) (fun _ => none) ⟨[], [], []⟩ none 0 []
      = .attributeError
    ∧ handle_ws (fun _ => none) ⟨[], []⟩ none 0 []
      = (⟨[], []⟩,
          [.logW "Missing X-Self-ID Header",
            .close 1008 "Missing X-Self-ID Header"]) :=
  ⟨rfl, rfl⟩

/-- Claim C10: in the `src/nonebot/adapters/spigot` variant a successful
handshake stores the websocket under the identity in both
`self.connections` and the module-level `get_connections`, but the
`finally` clause pops only `self.connections`; after the connection
terminates the identity is gone from `self.connections` while the stale
`get_connections` entry is still present. -/
theorem c10_stale_get_connections (unescape : String → String)
    (decode : Json → Option Event) (sta : AdaptersState) (raw name : String)
    (ws : Nat) (frames : List FrameIn)
    (hraw : unescape raw = name) (hname : name ≠ "") (hbots : name ∉ sta.bots) :
    ∃ stf acts,
      handle_ws_adapters unescape decode sta (some raw) ws frames
        = .ok (stf, acts)
      ∧ (∀ p ∈ stf.connections, p.1 ≠ name)
      ∧ (name, ws) ∈ stf.get_connections := by
  exact ⟨_, _, handle_ws_adapters_success unescape decode sta raw name ws
    frames hraw hname hbots, dictPop_ne name _, dictSet_mem name ws _⟩

theorem c10_witness :
    ∃ stf acts,
      handle_ws_adapters (fun s => s) (fun _ => none) ⟨[], [], []⟩
          (some "Bot1") 9 [.closedByPeer] = .ok (stf, acts)
      ∧ (∀ p ∈ stf.connections, p.1 ≠ "Bot1")
      ∧ ("Bot1", 9) ∈ stf.get_connections :=
  c10_stale_get_connections (fun s => s) (fun _ => none) ⟨[], [], []⟩
    "Bot1" "Bot1" 9 [.closedByPeer] rfl (by decide) (by decide)

/-- Claim C5 (code bug): the duplicate check and the registration block
of `_handle_ws` are separated by `await websocket.accept()`, so two
concurrent handshake tasks for the same identity can interleave as
check-A, check-B, register-A, register-B: both pass the duplicate check
(the bot set is still empty at both checks), both register — two
`bot_connect` notifications fire, no duplicate rejection is sent, and
the second registration silently overwrites the first websocket in
`self.connections` — refuting "exactly one registration succeeds and the
other is rejected as a duplicate". -/
theorem c5_interleaved_double_register :
    (runRace "Bot1" 1 2 [true, false, true, false]
        ⟨⟨[], []⟩, .start, .start, []⟩).phaseA = .registered
    ∧ (runRace "Bot1" 1 2 [true, false, true, false]
        ⟨⟨[], []⟩, .start, .start, []⟩).phaseB = .registered
    ∧ countConnects "Bot1" (runRace "Bot1" 1 2 [true, false, true, false]
        ⟨⟨[], []⟩, .start, .start, []⟩).acts = 2
    ∧ countRejects (runRace "Bot1" 1 2 [true, false, true, false]
        ⟨⟨[], []⟩, .start, .start, []⟩).acts = 0
    ∧ (runRace "Bot1" 1 2 [true, false, true, false]
        ⟨⟨[], []⟩, .start, .start, []⟩).st.connections = [("Bot1", 2)] := by
  refine ⟨rfl, rfl, rfl, rfl, by decide⟩

/-- Claim C9 (amended): the spec-modelled `resolve` is a total function
(it never raises), and on a payload in which none of the configured
discriminator fields is present it returns the empty sequence — the
generic base-Event fallback is not among the candidates; it is applied
later by `json_to_event`, not produced by `resolve`. -/
theorem c9_amended_resolve_empty (index : ModelIndex) (keys : List String)
    (payload : Json) (h : ∀ k ∈ keys, payload.lookup k = none) :
    resolve index keys payload = [] := by
  have hkey : presentKey keys payload = [] := by
    cases keys with
    | nil => rfl
    | cons k rest => simp [presentKey, h k (List.mem_cons_self k rest)]
  simp [resolve, hkey, initsDesc]

theorem c9_amended_witness :
    (∀ k ∈ ["post_type", "event_name"],
      (Json.obj [("player", Json.str "Steve")]).lookup k = none)
    ∧ resolve [([Json.str "message"], [1]), ([Json.str "notice"], [2])]
        ["post_type", "event_name"] (Json.obj [("player", Json.str "Steve")]) = [] :=
  ⟨fun k hk => by
      rcases List.mem_cons.mp hk with h1 | h1
      · subst h1; rfl
      · rw [List.mem_singleton] at h1; subst h1; rfl,
    c9_amended_resolve_empty _ _ _ (fun k hk => by
      rcases List.mem_cons.mp hk with h1 | h1
      · subst h1; rfl
      · rw [List.mem_singleton] at h1; subst h1; rfl)⟩

/-- Claim C9 counterexample: take the two-field collator of the
`adapters` variant with a concrete index and designate candidate id 0 as
the generic fallback.  On the payload `{}` — no discriminator field
present — `resolve` returns the empty sequence, which does not contain
the fallback candidate (it contains no candidate at all), refuting
"returns a sequence containing at least the generic fallback
candidate". -/
theorem c9_cex_no_discriminator_empty :
    resolve [([Json.str "message"], [1]), ([Json.str "notice"], [2])]
        ["post_type", "event_name"] (Json.obj []) = []
    ∧ (0 : Nat) ∉ resolve [([Json.str "message"], [1]), ([Json.str "notice"], [2])]
        ["post_type", "event_name"] (Json.obj []) :=
  ⟨rfl, List.not_mem_nil 0⟩

end Spigot
